import Mathlib

/-!
Verification development for the evcc status display firmware.

The embedding models the device code shallowly:
* C `float` values are modelled as `ℚ` (exact rational arithmetic);
  a C cast `(int)x` is truncation toward zero (`ctrunc`), and the Arduino
  `String(float, decimals)` conversion rounds half away from zero (`rhalf`).
* `millis()` timestamps are natural numbers; 32-bit unsigned subtraction as
  performed by the ESP32 is `usub32`.
* LVGL object state is abstracted to the observable outputs the code sets:
  hidden flags, positions and widths.
* The ArduinoJson document produced by `deserializeJson` is modelled as
  `Option CombinedDoc`: `none` is a deserialization error, and each field of
  `CombinedDoc` is `Option`-valued exactly where the C code uses the
  ArduinoJson `|` default operator on a possibly-missing key.
-/

/-- C cast of a (non-NaN, in-range) floating value to `int`: truncation toward zero. -/
def ctrunc (q : ℚ) : ℤ := if 0 ≤ q then ⌊q⌋ else ⌈q⌉

/-- Rounding used by Arduino `String(float value, unsigned char decimalPlaces)`
(dtostrf): round half away from zero. -/
def rhalf (q : ℚ) : ℤ := if 0 ≤ q then ⌊q + 1/2⌋ else -⌊-q + 1/2⌋

/-- Arduino `String(value, 1)`: fixed-point rendering with one decimal digit. -/
def fixed1 (q : ℚ) : String :=
  let n := rhalf (q * 10)
  (if n < 0 then "-" else "") ++ toString (n.natAbs / 10) ++ "." ++ toString (n.natAbs % 10)

/-- Arduino `String(value, 0)`: fixed-point rendering with no decimal digit. -/
def fixed0 (q : ℚ) : String := toString (rhalf q)

/-- `formatPower` from the firmware: three tiers keyed on the absolute wattage. -/
def formatPower (watts : ℚ) : String :=
  if |watts| < 1000 then toString (ctrunc watts) ++ "W"
  else if |watts| < 10000 then fixed1 (watts / 1000) ++ "kW"
  else fixed0 (watts / 1000) ++ "kW"

/-- `formatPercentage` from the firmware. -/
def formatPercentage (value : ℚ) : String :=
  if 0 ≤ value then toString (ctrunc value) ++ "%" else "---"

/-- Poll-failure bookkeeping from `loop` and `pollEVCCData`: on a successful poll
the counter is reset to zero; on a failed poll it is incremented and a restart
is issued when the incremented counter exceeds 50. Returns the new counter and
whether `ESP.restart()` fires in this iteration. -/
def handlePollResult (consecutiveFailures : ℕ) (pollSuccess : Bool) : ℕ × Bool :=
  if pollSuccess then (0, false)
  else
    let c := consecutiveFailures + 1
    (c, decide (50 < c))

/-- Iterating `handlePollResult` over `n` consecutive failed polls starting from a
fresh (zero) counter; the Bool records whether a restart was ever triggered. -/
def failStreak : ℕ → ℕ × Bool
  | 0 => (0, false)
  | n + 1 =>
    let p := failStreak n
    let r := handlePollResult p.1 false
    (r.1, p.2 || r.2)

/-- Overflow handling at the top of `loop`: when `millis()` reads below a stored
baseline, that baseline is set to 0. Returns the adjusted `(lastPoll, lastLVGL)`. -/
def overflowAdjustTimers (now lastPoll lastLVGL : ℕ) : ℕ × ℕ :=
  ((if now < lastPoll then 0 else lastPoll), (if now < lastLVGL then 0 else lastLVGL))

/-- `RotationState` from config.h: which loadpoint is foregrounded (`true` = LP1)
and the `millis()` timestamp of the last rotation. -/
structure RotationState where
  currentLoadpoint : Bool
  lastRotation : ℕ
deriving DecidableEq

/-- Rotation interval from config.h (10 seconds). -/
def ROTATION_INTERVAL : ℕ := 10000

/-- 32-bit unsigned subtraction `a - b` as computed on `unsigned long` by the ESP32. -/
def usub32 (a b : ℕ) : ℕ := (a + (2 ^ 32 - b % 2 ^ 32)) % 2 ^ 32

/-- `getActiveLoadpoint` from the firmware, with the global telemetry and rotation
state made explicit. The returned Bool is the selected loadpoint (`true` = LP1),
paired with the updated rotation state. -/
def getActiveLoadpoint (lp1Charging lp2Charging : Bool) (now : ℕ) (rs : RotationState) :
    Bool × RotationState :=
  if lp1Charging && !lp2Charging then (true, rs)
  else if lp2Charging && !lp1Charging then (false, rs)
  else if ROTATION_INTERVAL ≤ usub32 now rs.lastRotation then
    (!rs.currentLoadpoint, ⟨!rs.currentLoadpoint, now⟩)
  else (rs.currentLoadpoint, rs)

/-- Display constant from config.h. -/
def SCREEN_WIDTH : ℤ := 480

/-- Display constant from config.h. -/
def PADDING : ℤ := 4

/-- Width of the car section SoC bar in `updateUI`: `SCREEN_WIDTH - (4*PADDING) - 16`. -/
def carBarWidth : ℤ := SCREEN_WIDTH - 4 * PADDING - 16

/-- Plan-SoC marker placement from `updateUI`: shown only when
`effectivePlanSoc > 0`; its x position is the C-truncated value of
`soc/100 * barWidth - 1` (the 2px marker is centered by subtracting 1),
with no clamping. `none` means the marker is hidden. -/
def planSocMarker (effectivePlanSoc : ℚ) : Option ℤ :=
  if 0 < effectivePlanSoc then
    some (ctrunc (effectivePlanSoc / 100 * (carBarWidth : ℚ) - 1))
  else none

/-- Limit-SoC marker placement from `updateUI`: shown when
`effectiveLimitSoc >= 0`; its x position is the C-truncated value of
`soc/100 * barWidth - 3` (the 6px marker is centered by subtracting 3),
then clamped into `[0, barWidth - 6]`. `none` means the marker is hidden. -/
def limitSocMarker (effectiveLimitSoc : ℚ) : Option ℤ :=
  if 0 ≤ effectiveLimitSoc then
    let markerX := ctrunc (effectiveLimitSoc / 100 * (carBarWidth : ℚ) - 3)
    let markerX := if markerX < 0 then 0 else markerX
    let markerX := if carBarWidth - 6 < markerX then carBarWidth - 6 else markerX
    some markerX
  else none

/-- Observable state of one composite-bar segment after `updateCompositeBar`:
whether the segment object is visible, its x position and width, and whether
its value label is visible. A hidden segment is recorded as `⟨false, 0, 0, false⟩`. -/
structure SegOut where
  shown : Bool
  x : ℤ
  width : ℤ
  labelShown : Bool
deriving DecidableEq

/-- Total of the strictly positive magnitudes, accumulated as in the C loop. -/
def totalPower (values : List ℚ) : ℚ :=
  values.foldl (fun acc v => if 0 < v then acc + v else acc) 0

/-- Minimum segment width for a numeric label (`minWidthForText` in the source). -/
def minWidthForText : ℤ := 40

/-- Width of one positive segment: the C-truncated proportional share
`(int)((v / total) * barWidth)`, bumped to a minimum of 1 pixel. -/
def segWidth (v total : ℚ) (barWidth : ℤ) : ℤ :=
  let w := ctrunc (v / total * (barWidth : ℚ))
  if w < 1 then 1 else w

/-- The positioning loop of `updateCompositeBar`: segments with positive value are
placed at the running x cursor with their proportional width; others are hidden. -/
def layoutSegments (total : ℚ) (barWidth : ℤ) : List ℚ → ℤ → List SegOut
  | [], _ => []
  | v :: rest, curX =>
    if 0 < v then
      let w := segWidth v total barWidth
      ⟨true, curX, w, decide (minWidthForText ≤ w)⟩ :: layoutSegments total barWidth rest (curX + w)
    else
      ⟨false, 0, 0, false⟩ :: layoutSegments total barWidth rest curX

/-- `updateCompositeBar` from the firmware: the Bool is whether the container is
visible; the list gives the per-segment outcome in input order. -/
def updateCompositeBar (values : List ℚ) (barWidth : ℤ) : Bool × List SegOut :=
  let total := totalPower values
  if total < 1 then (false, values.map fun _ => ⟨false, 0, 0, false⟩)
  else (true, layoutSegments total barWidth values 0)

/-- Sum of the strictly positive entries, in direct recursive form (used to reason
about `totalPower`). -/
def sumPos : List ℚ → ℚ
  | [] => 0
  | v :: rest => (if 0 < v then v else 0) + sumPos rest

/-- Sum over the positive entries of the un-bumped truncated proportional widths. -/
def floorSum (total : ℚ) (barWidth : ℤ) : List ℚ → ℤ
  | [] => 0
  | v :: rest =>
      (if 0 < v then ⌊v / total * (barWidth : ℚ)⌋ else 0) + floorSum total barWidth rest

/-- Number of positive entries whose truncated proportional width falls below 1 pixel
and is therefore bumped to the 1-pixel minimum. -/
def bumpCount (total : ℚ) (barWidth : ℤ) : List ℚ → ℤ
  | [] => 0
  | v :: rest =>
      (if 0 < v ∧ ⌊v / total * (barWidth : ℚ)⌋ < 1 then 1 else 0) + bumpCount total barWidth rest

/-- The shown segments of a layout are contiguous from a given x cursor:
each shown segment starts exactly where the previous shown one ended. -/
def contiguousFrom (x0 : ℤ) : List SegOut → Prop
  | [] => True
  | s :: rest =>
      if s.shown then s.x = x0 ∧ contiguousFrom (x0 + s.width) rest
      else contiguousFrom x0 rest

/-- `LoadpointData` from config.h. `chargeCurrents` is the three per-phase values. -/
structure LoadpointData where
  soc : ℚ
  chargePower : ℚ
  title : String
  vehicleTitle : String
  charging : Bool
  plugged : Bool
  vehicleRange : ℚ
  effectivePlanTime : String
  effectivePlanSoc : ℚ
  effectiveLimitSoc : ℚ
  planProjectedStart : String
  chargeCurrents : ℚ × ℚ × ℚ
  maxCurrent : ℚ
  offeredCurrent : ℚ
  phasesActive : ℤ

/-- `EVCCData` from config.h (the telemetry snapshot). -/
structure EVCCData where
  gridPower : ℚ
  pvPower : ℚ
  batterySoc : ℚ
  homePower : ℚ
  batteryPower : ℚ
  solarForecastScale : ℚ
  solarForecastTodayEnergy : ℚ
  lp1 : LoadpointData
  lp2 : LoadpointData
  lastUpdate : ℕ
  consecutiveFailures : ℕ

/-- One loadpoint object of the decoded JSON document; a field is `none` when the
key is absent (or of the wrong type), matching the ArduinoJson `|` defaults.
`chargeCurrents` is the decoded array (`[]` when the key is absent). -/
structure LoadpointJson where
  soc : Option ℚ := none
  chargePower : Option ℚ := none
  title : Option String := none
  vehicletitle : Option String := none
  charging : Option Bool := none
  plugged : Option Bool := none
  vehicleRange : Option ℚ := none
  effectivePlanTime : Option String := none
  effectivePlanSoc : Option ℚ := none
  effectiveLimitSoc : Option ℚ := none
  planProjectedStart : Option String := none
  maxCurrent : Option ℚ := none
  offeredCurrent : Option ℚ := none
  phasesActive : Option ℤ := none
  chargeCurrents : List (Option ℚ) := []

/-- The `solar` sub-object of the decoded JSON document. -/
structure SolarJson where
  scale : Option ℚ := none
  todayEnergy : Option ℚ := none

/-- The decoded combined JSON document. `loadpoints` entries are `none` for JSON
null entries; an absent `loadpoints` key behaves as the empty array. -/
structure CombinedDoc where
  gridPower : Option ℚ := none
  pvPower : Option ℚ := none
  batterySoc : Option ℚ := none
  homePower : Option ℚ := none
  batteryPower : Option ℚ := none
  solar : Option SolarJson := none
  loadpoints : List (Option LoadpointJson) := []

/-- The reset block of `parseCombinedData` ("Reset loadpoint data"): exactly these
seven fields are returned to their unknown values; all other fields keep their
previous contents. -/
def resetLoadpoint (lp : LoadpointData) : LoadpointData :=
  { lp with soc := -1, chargePower := 0, vehicleRange := -1, effectivePlanTime := "",
            effectivePlanSoc := -1, effectiveLimitSoc := -1, planProjectedStart := "" }

/-- The `chargeCurrents` copy loop: entries `i < min 3 currents.size` are overwritten
(with 0 for a non-numeric element); remaining entries keep their old values. -/
def setCurrents (old : ℚ × ℚ × ℚ) : List (Option ℚ) → ℚ × ℚ × ℚ
  | [] => old
  | [a] => (a.getD 0, old.2.1, old.2.2)
  | [a, b] => (a.getD 0, b.getD 0, old.2.2)
  | a :: b :: c :: _ => (a.getD 0, b.getD 0, c.getD 0)

/-- Population of one loadpoint record from a present loadpoint JSON object,
starting from the post-reset record `old` (only `chargeCurrents` reads it). -/
def parseLoadpoint (lp : LoadpointJson) (old : LoadpointData) (defaultTitle : String) :
    LoadpointData where
  soc := lp.soc.getD (-1)
  chargePower := lp.chargePower.getD 0
  title := lp.title.getD defaultTitle
  vehicleTitle := lp.vehicletitle.getD ""
  charging := lp.charging.getD false
  plugged := lp.plugged.getD false
  vehicleRange := lp.vehicleRange.getD (-1)
  effectivePlanTime := lp.effectivePlanTime.getD ""
  effectivePlanSoc := lp.effectivePlanSoc.getD (-1)
  effectiveLimitSoc := lp.effectiveLimitSoc.getD (-1)
  planProjectedStart := lp.planProjectedStart.getD ""
  chargeCurrents := setCurrents old.chargeCurrents lp.chargeCurrents
  maxCurrent := lp.maxCurrent.getD 0
  offeredCurrent := lp.offeredCurrent.getD 0
  phasesActive := lp.phasesActive.getD 0

/-- `parseCombinedData` from the firmware. The argument `parsed` is the result of
`deserializeJson` (`none` on a deserialization error). Returns the C return value
paired with the telemetry snapshot after the call. -/
def parseCombinedData (parsed : Option CombinedDoc) (data : EVCCData) : Bool × EVCCData :=
  match parsed with
  | none => (false, data)
  | some doc =>
    let data := { data with
      gridPower := doc.gridPower.getD 0
      pvPower := doc.pvPower.getD 0
      batterySoc := doc.batterySoc.getD (-1)
      homePower := doc.homePower.getD 0
      batteryPower := doc.batteryPower.getD 0 }
    let data := match doc.solar with
      | some s =>
          { data with solarForecastScale := s.scale.getD 1,
                      solarForecastTodayEnergy := s.todayEnergy.getD 0 }
      | none => { data with solarForecastScale := 1, solarForecastTodayEnergy := 0 }
    let data := { data with lp1 := resetLoadpoint data.lp1, lp2 := resetLoadpoint data.lp2 }
    let data := match doc.loadpoints with
      | some lp1 :: _ => { data with lp1 := parseLoadpoint lp1 data.lp1 "LP1" }
      | _ => data
    let data := match doc.loadpoints with
      | _ :: some lp2 :: _ => { data with lp2 := parseLoadpoint lp2 data.lp2 "LP2" }
      | _ => data
    (true, data)

/-- A loadpoint record with the C++ default member values from config.h. -/
def initialLoadpoint : LoadpointData where
  soc := -1
  chargePower := 0
  title := ""
  vehicleTitle := ""
  charging := false
  plugged := false
  vehicleRange := -1
  effectivePlanTime := ""
  effectivePlanSoc := -1
  effectiveLimitSoc := -1
  planProjectedStart := ""
  chargeCurrents := (0, 0, 0)
  maxCurrent := 0
  offeredCurrent := 0
  phasesActive := 0

/-- A telemetry snapshot left over from a previous poll during which loadpoint 1
was present and charging. -/
def staleData : EVCCData where
  gridPower := 0
  pvPower := 0
  batterySoc := -1
  homePower := 0
  batteryPower := 0
  solarForecastScale := 1
  solarForecastTodayEnergy := 0
  lp1 := { initialLoadpoint with
    charging := true, plugged := true, title := "Garage", vehicleTitle := "EV",
    maxCurrent := 16, offeredCurrent := 8, phasesActive := 3, chargeCurrents := (6, 6, 6) }
  lp2 := initialLoadpoint
  lastUpdate := 0
  consecutiveFailures := 0

/-- Arduino `String::substring(a, b)`: the characters at indices in `[a, b)`. -/
def substr (s : String) (a b : ℕ) : String :=
  ((s.toList.drop a).take (b - a)).asString

/-- Decimal digit accumulation of `atol`: consume leading digits, stop at the first
non-digit. -/
def digitsToNat : List Char → ℕ → ℕ
  | [], acc => acc
  | c :: r, acc => if c.isDigit then digitsToNat r (acc * 10 + (c.toNat - 48)) else acc

/-- Arduino `String::toInt` (`atol`): skip leading spaces, optional sign, then
leading digits; 0 when there are none. -/
def toIntArd (s : String) : ℤ :=
  match s.toList.dropWhile (· = ' ') with
  | '-' :: r => -(digitsToNat r 0 : ℤ)
  | '+' :: r => (digitsToNat r 0 : ℤ)
  | l => (digitsToNat l 0 : ℤ)

/-- The host's current local date as obtained from `localtime(time(nullptr))`:
calendar year, month (1-12), day of month, and whether DST is in effect. -/
structure Today where
  year : ℤ
  month : ℤ
  day : ℤ
  isDST : Bool

/-- Modelled behavior of libc `mktime` normalization as used by `formatPlanTime`:
the day of the week (`tm_wday`, 0 = Sunday) of a Gregorian civil date, computed
with the standard Sakamoto congruence. Only queried for years `≥ 1`. -/
def mktimeWday (y m d : ℤ) : ℤ :=
  let t : List ℤ := [0, 3, 2, 5, 0, 3, 5, 1, 4, 6, 2, 4]
  let y2 := if m < 3 then y - 1 else y
  (y2 + y2 / 4 - y2 / 100 + y2 / 400 + t.getD (m - 1).toNat 0 + d) % 7

/-- German weekday names indexed by `tm_wday`. -/
def germanDays : List String :=
  ["Sonntag", "Montag", "Dienstag", "Mittwoch", "Donnerstag", "Freitag", "Samstag"]

/-- UTC→local conversion of `formatPlanTime`: add the fixed DST-dependent offset
(+2h daylight, +1h standard) and handle day overflow with the leap-year-aware
days-in-month table. Returns `(localHour, localDay, localMonth, localYear)`. -/
def planLocalAdjust (year month day hour : ℤ) (isDST : Bool) : ℤ × ℤ × ℤ × ℤ :=
  let localHour := hour + (if isDST then 2 else 1)
  if 24 ≤ localHour then
    let localHour := localHour - 24
    let localDay := day + 1
    let feb : ℤ := if year % 4 = 0 ∧ (year % 100 ≠ 0 ∨ year % 400 = 0) then 29 else 28
    let dim : List ℤ := [31, feb, 31, 30, 31, 30, 31, 31, 30, 31, 30, 31]
    if dim.getD (month - 1).toNat 31 < localDay then
      if 12 < month + 1 then (localHour, 1, 1, year + 1)
      else (localHour, 1, month + 1, year)
    else (localHour, localDay, month, year)
  else (localHour, day, month, year)

/-- Day-difference computation of `formatPlanTime`: exact difference within the
current month, otherwise collapsed to the sentinel `7` (future) or `-7` (past). -/
def planDaysDiff (localYear localMonth localDay : ℤ) (t : Today) : ℤ :=
  if localYear = t.year ∧ localMonth = t.month then localDay - t.day
  else if t.year < localYear ∨ (localYear = t.year ∧ t.month < localMonth) then 7
  else -7

/-- The body of `formatPlanTime` after fixed-offset substring parsing. -/
def formatPlanTimeCore (year month day hour minute : ℤ) (t : Today) : String :=
  let a := planLocalAdjust year month day hour t.isDST
  let localHour := a.1
  let localDay := a.2.1
  let localMonth := a.2.2.1
  let localYear := a.2.2.2
  let daysDiff := planDaysDiff localYear localMonth localDay t
  let dayString :=
    if daysDiff = 0 then "Heute"
    else if daysDiff = 1 then "Morgen"
    else if 2 ≤ daysDiff ∧ daysDiff < 7 then
      germanDays.getD (mktimeWday localYear localMonth localDay).toNat ""
    else toString localDay ++ "." ++ toString localMonth ++ "."
  let timeString :=
    (if localHour < 10 then "0" else "") ++ toString localHour ++ ":" ++
    (if minute < 10 then "0" else "") ++ toString minute
  dayString ++ " " ++ timeString

/-- `formatPlanTime` from the firmware: fail closed on short inputs, otherwise parse
the five fixed-offset substrings and format. -/
def formatPlanTime (isoTime : String) (t : Today) : String :=
  if isoTime.length = 0 ∨ isoTime.length < 19 then "keiner"
  else
    formatPlanTimeCore (toIntArd (substr isoTime 0 4)) (toIntArd (substr isoTime 5 7))
      (toIntArd (substr isoTime 8 10)) (toIntArd (substr isoTime 11 13))
      (toIntArd (substr isoTime 14 16)) t

/-! ## Helper lemmas -/

/-- Evaluation of the C int cast on a nonnegative rational. -/
theorem ctrunc_eval_nn {q : ℚ} {z : ℤ} (h0 : 0 ≤ q) (h1 : (z : ℚ) ≤ q) (h2 : q < z + 1) :
    ctrunc q = z := by
  rw [ctrunc, if_pos h0]
  exact Int.floor_eq_iff.mpr ⟨h1, h2⟩

/-- Evaluation of the C int cast on a negative rational. -/
theorem ctrunc_eval_np {q : ℚ} {z : ℤ} (h0 : ¬ 0 ≤ q) (h1 : (z : ℚ) - 1 < q) (h2 : q ≤ z) :
    ctrunc q = z := by
  rw [ctrunc, if_neg h0, Int.ceil_eq_iff]
  exact ⟨h1, h2⟩

/-- Evaluation of dtostrf rounding on a nonnegative rational. -/
theorem rhalf_eval_nn {q : ℚ} {z : ℤ} (h0 : 0 ≤ q) (h1 : (z : ℚ) ≤ q + 1/2) (h2 : q + 1/2 < z + 1) :
    rhalf q = z := by
  rw [rhalf, if_pos h0]
  exact Int.floor_eq_iff.mpr ⟨h1, h2⟩

/-! ## Claims -/

/-- Claim C3, amended: a restart is triggered exactly when the failure counter
exceeds 50 (on the 51st consecutive failed poll); each failed poll increments the
counter by one and each successful poll resets it to zero. -/
theorem pollFailure_restart_threshold (c : ℕ) :
    handlePollResult c true = (0, false) ∧
    (handlePollResult c false).1 = c + 1 ∧
    ((handlePollResult c false).2 = true ↔ 51 ≤ c + 1) := by
  refine ⟨rfl, rfl, ?_⟩
  simp only [handlePollResult, if_neg Bool.false_ne_true, decide_eq_true_eq]
  omega

/-- Claim C3, counterexample to the claim as stated: after 50 consecutive failed
polls the counter has reached 50 yet no restart has been triggered; the restart
fires only on the 51st. -/
theorem pollFailure_no_restart_at_50 :
    failStreak 50 = (50, false) ∧ failStreak 51 = (51, true) := by decide

/-- Claim C4, amended: when the millisecond counter has wrapped (now reads below a
stored baseline) the stored baseline is reset to 0 — not to now — for both the
poll timer and the graphics-tick timer; an unwrapped baseline is left unchanged. -/
theorem loopTimer_overflow_reset (now lp ll : ℕ) :
    (now < lp → (overflowAdjustTimers now lp ll).1 = 0) ∧
    (now < ll → (overflowAdjustTimers now lp ll).2 = 0) ∧
    (lp ≤ now → (overflowAdjustTimers now lp ll).1 = lp) ∧
    (ll ≤ now → (overflowAdjustTimers now lp ll).2 = ll) := by
  refine ⟨fun h => ?_, fun h => ?_, fun h => ?_, fun h => ?_⟩ <;>
    simp only [overflowAdjustTimers] <;> split <;> first | rfl | omega

/-- Claim C4, counterexample to the claim as stated: at now = 5 with stored
baselines 10 the code resets both baselines to 0, not to now = 5. -/
theorem loopTimer_overflow_not_now :
    overflowAdjustTimers 5 10 10 = (0, 0) ∧ (0 : ℕ) ≠ 5 := by decide

/-- Claim C4 witness. -/
theorem loopTimer_overflow_reset_witness :
    3 < 7 ∧ (overflowAdjustTimers 3 7 2).1 = 0 :=
  ⟨by decide, (loopTimer_overflow_reset 3 7 2).1 (by decide)⟩


/-- Claim C5, amended: when exactly one loadpoint is charging the selector returns
that loadpoint and leaves the rotation state unchanged, regardless of the timer;
when neither or both are charging, a second call returns the same loadpoint as a
first call whenever less than the rotation interval has elapsed (in 32-bit
wrap-around arithmetic) since the rotation baseline in effect after the first
call. Two calls merely separated by less than the interval can differ when the
rotation deadline falls between them. The selector always returns one of the two
loadpoints by construction of its Bool result. -/
theorem getActiveLoadpoint_selection (c1 c2 : Bool) (now1 now2 : ℕ) (rs : RotationState) :
    (c1 = true → c2 = false → getActiveLoadpoint c1 c2 now1 rs = (true, rs)) ∧
    (c2 = true → c1 = false → getActiveLoadpoint c1 c2 now1 rs = (false, rs)) ∧
    (c1 = c2 →
      usub32 now2 ((getActiveLoadpoint c1 c2 now1 rs).2).lastRotation < ROTATION_INTERVAL →
      (getActiveLoadpoint c1 c2 now2 (getActiveLoadpoint c1 c2 now1 rs).2).1 =
        (getActiveLoadpoint c1 c2 now1 rs).1) := by
  refine ⟨fun h1 h2 => ?_, fun h1 h2 => ?_, fun heq hlt => ?_⟩
  · subst h1; subst h2; rfl
  · subst h1; subst h2; rfl
  · subst heq
    have aux : ∀ (c : Bool) (now : ℕ) (st : RotationState),
        getActiveLoadpoint c c now st =
          if ROTATION_INTERVAL ≤ usub32 now st.lastRotation then
            ((!st.currentLoadpoint), (⟨!st.currentLoadpoint, now⟩ : RotationState))
          else (st.currentLoadpoint, st) := fun c now st => by cases c <;> rfl
    simp only [aux] at hlt ⊢
    by_cases hrot : ROTATION_INTERVAL ≤ usub32 now1 rs.lastRotation
    · simp only [if_pos hrot] at hlt ⊢
      rw [if_neg (by omega)]
    · simp only [if_neg hrot] at hlt ⊢
      rw [if_neg (by omega)]

/-- Claim C5, counterexample to the claim as stated: with neither loadpoint
charging and a rotation baseline of 0, a call at 5000 ms returns LP1 but a second
call at 11000 ms — 6000 ms later, less than the 10-second interval — returns LP2,
because the rotation deadline was crossed between the two calls. -/
theorem getActiveLoadpoint_rotation_differs :
    (getActiveLoadpoint false false 5000 ⟨true, 0⟩).1 = true ∧
    (getActiveLoadpoint false false 11000 (getActiveLoadpoint false false 5000 ⟨true, 0⟩).2).1
      = false ∧
    11000 - 5000 < ROTATION_INTERVAL := by decide

/-- Claim C5 witness. -/
theorem getActiveLoadpoint_selection_witness :
    usub32 3000 ((getActiveLoadpoint true true 2000 ⟨true, 0⟩).2).lastRotation
      < ROTATION_INTERVAL ∧
    (getActiveLoadpoint true true 3000 (getActiveLoadpoint true true 2000 ⟨true, 0⟩).2).1 =
      (getActiveLoadpoint true true 2000 ⟨true, 0⟩).1 :=
  ⟨by decide, (getActiveLoadpoint_selection true true 2000 3000 ⟨true, 0⟩).2.2 rfl (by decide)⟩

/-- Claim C7: on a deserialization error `parseCombinedData` returns false and
leaves the entire telemetry snapshot unmodified, and a deserialization error is
the only condition under which it returns false. -/
theorem parse_error_leaves_snapshot (parsed : Option CombinedDoc) (d : EVCCData) :
    parseCombinedData none d = (false, d) ∧
    (∀ doc : CombinedDoc, (parseCombinedData (some doc) d).1 = true) ∧
    ((parseCombinedData parsed d).1 = false ↔ parsed = none) ∧
    ((parseCombinedData parsed d).1 = false → (parseCombinedData parsed d).2 = d) := by
  refine ⟨rfl, fun doc => rfl, ?_, ?_⟩ <;> cases parsed <;> simp [parseCombinedData]

/-- Claim C7 witness. -/
theorem parse_error_leaves_snapshot_witness :
    (parseCombinedData none staleData).1 = false ∧
    (parseCombinedData none staleData).2 = staleData :=
  ⟨rfl, (parse_error_leaves_snapshot none staleData).2.2.2 rfl⟩

/-- Claim C1, counterexample to the claim as stated: decoding the valid payload
`{}` (no `loadpoints` key) against a snapshot whose loadpoint 1 was charging
succeeds, yet `charging`, `plugged`, `title`, `maxCurrent`, `phasesActive` and
`chargeCurrents` of loadpoint 1 keep their stale values instead of returning to
their unknown/default state. -/
theorem parse_stale_carryover :
    (parseCombinedData (some {}) staleData).1 = true ∧
    ((parseCombinedData (some {}) staleData).2).lp1.charging = true ∧
    ((parseCombinedData (some {}) staleData).2).lp1.plugged = true ∧
    ((parseCombinedData (some {}) staleData).2).lp1.title = "Garage" ∧
    ((parseCombinedData (some {}) staleData).2).lp1.maxCurrent = 16 ∧
    ((parseCombinedData (some {}) staleData).2).lp1.phasesActive = 3 ∧
    ((parseCombinedData (some {}) staleData).2).lp1.chargeCurrents = (6, 6, 6) :=
  ⟨rfl, rfl, rfl, rfl, rfl, rfl, rfl⟩

/-- Claim C1, amended: a successful decode of a payload without a `loadpoints`
array resets exactly seven fields of each loadpoint record — `soc`,
`chargePower`, `vehicleRange`, `effectivePlanTime`, `effectivePlanSoc`,
`effectiveLimitSoc`, `planProjectedStart` — to their unknown values, while
`charging`, `plugged`, `title`, `vehicleTitle`, `chargeCurrents`, `maxCurrent`,
`offeredCurrent` and `phasesActive` carry over from the previous poll. -/
theorem parse_reset_scope (doc : CombinedDoc) (d : EVCCData) (lp : LoadpointData)
    (h : doc.loadpoints = []) :
    (parseCombinedData (some doc) d).1 = true ∧
    ((parseCombinedData (some doc) d).2).lp1 = resetLoadpoint d.lp1 ∧
    ((parseCombinedData (some doc) d).2).lp2 = resetLoadpoint d.lp2 ∧
    (resetLoadpoint lp).soc = -1 ∧
    (resetLoadpoint lp).chargePower = 0 ∧
    (resetLoadpoint lp).vehicleRange = -1 ∧
    (resetLoadpoint lp).effectivePlanTime = "" ∧
    (resetLoadpoint lp).effectivePlanSoc = -1 ∧
    (resetLoadpoint lp).effectiveLimitSoc = -1 ∧
    (resetLoadpoint lp).planProjectedStart = "" ∧
    (resetLoadpoint lp).charging = lp.charging ∧
    (resetLoadpoint lp).plugged = lp.plugged ∧
    (resetLoadpoint lp).title = lp.title ∧
    (resetLoadpoint lp).vehicleTitle = lp.vehicleTitle ∧
    (resetLoadpoint lp).chargeCurrents = lp.chargeCurrents ∧
    (resetLoadpoint lp).maxCurrent = lp.maxCurrent ∧
    (resetLoadpoint lp).offeredCurrent = lp.offeredCurrent ∧
    (resetLoadpoint lp).phasesActive = lp.phasesActive := by
  refine ⟨rfl, ?_, ?_, rfl, rfl, rfl, rfl, rfl, rfl, rfl, rfl, rfl, rfl, rfl, rfl, rfl, rfl, rfl⟩
  · cases hs : doc.solar <;> simp only [parseCombinedData, h, hs]
  · cases hs : doc.solar <;> simp only [parseCombinedData, h, hs]

/-- Claim C1 witness. -/
theorem parse_reset_scope_witness :
    ({} : CombinedDoc).loadpoints = [] ∧
    ((parseCombinedData (some {}) staleData).2).lp1 = resetLoadpoint staleData.lp1 :=
  ⟨rfl, (parse_reset_scope {} staleData initialLoadpoint rfl).2.1⟩

/-- Claim C9: `formatPower` falls into exactly one of three tiers keyed on the
absolute wattage — integer watts with a "W" suffix below 1000, one-decimal
kilowatts from 1000 up to 10000, zero-decimal kilowatts from 10000 — with the
sign preserved, and the four documented examples hold. -/
theorem formatPower_tiers (w : ℚ) :
    (|w| < 1000 → formatPower w = toString (ctrunc w) ++ "W") ∧
    (1000 ≤ |w| → |w| < 10000 → formatPower w = fixed1 (w / 1000) ++ "kW") ∧
    (10000 ≤ |w| → formatPower w = fixed0 (w / 1000) ++ "kW") ∧
    formatPower 999 = "999W" ∧ formatPower 1000 = "1.0kW" ∧
    formatPower (-500) = "-500W" ∧ formatPower 12345 = "12kW" := by
  refine ⟨fun h1 => ?_, fun h1 h2 => ?_, fun h1 => ?_, ?_, ?_, ?_, ?_⟩
  · rw [formatPower, if_pos h1]
  · rw [formatPower, if_neg (not_lt.mpr h1), if_pos h2]
  · rw [formatPower, if_neg (not_lt.mpr (by linarith)), if_neg (not_lt.mpr h1)]
  · rw [formatPower, if_pos (by norm_num),
      ctrunc_eval_nn (z := 999) (by norm_num) (by norm_num) (by norm_num)]
    rfl
  · rw [formatPower, if_neg (by norm_num), if_pos (by norm_num), fixed1]
    have h : rhalf (1000 / 1000 * 10) = 10 :=
      rhalf_eval_nn (by norm_num) (by norm_num) (by norm_num)
    rw [h]
    rfl
  · rw [formatPower, if_pos (by norm_num)]
    have h : ctrunc (-500) = -500 := ctrunc_eval_np (by norm_num) (by norm_num) (by norm_num)
    rw [h]
    rfl
  · rw [formatPower, if_neg (by norm_num), if_neg (by norm_num), fixed0]
    have h : rhalf (12345 / 1000) = 12 := rhalf_eval_nn (by norm_num) (by norm_num) (by norm_num)
    rw [h]
    rfl

/-- Claim C9 witness. -/
theorem formatPower_tiers_witness :
    1000 ≤ |(2500 : ℚ)| ∧ |(2500 : ℚ)| < 10000 ∧
    formatPower 2500 = fixed1 (2500 / 1000) ++ "kW" :=
  ⟨by norm_num, by norm_num, (formatPower_tiers 2500).2.1 (by norm_num) (by norm_num)⟩

/-- Claim C10: in their integer tiers the formatters truncate toward zero rather
than round — `formatPower` below 1000 W prints the integer part (truncation
toward zero, which is the floor on nonnegative input), `formatPercentage` prints
the integer part for nonnegative input — and the documented examples hold. -/
theorem formatters_truncate_toward_zero (w v : ℚ) :
    (|w| < 1000 → formatPower w = toString (ctrunc w) ++ "W") ∧
    (0 ≤ v → formatPercentage v = toString (ctrunc v) ++ "%") ∧
    (0 ≤ v → ctrunc v = ⌊v⌋) ∧
    ((ctrunc v : ℚ) - 1 < v ∧ v < (ctrunc v : ℚ) + 1) ∧
    formatPower (999.9 : ℚ) = "999W" ∧ formatPower (-0.5 : ℚ) = "0W" ∧
    formatPercentage (99.9 : ℚ) = "99%" := by
  refine ⟨fun h1 => ?_, fun h1 => ?_, fun h1 => ?_, ?_, ?_, ?_, ?_⟩
  · rw [formatPower, if_pos h1]
  · rw [formatPercentage, if_pos h1]
  · rw [ctrunc, if_pos h1]
  · rw [ctrunc]
    constructor <;> split
    · have := Int.floor_le v
      linarith
    · have := Int.ceil_lt_add_one v
      linarith
    · have := Int.lt_floor_add_one v
      linarith
    · have := Int.le_ceil v
      linarith
  · rw [formatPower, if_pos (by rw [abs_lt]; constructor <;> norm_num),
      ctrunc_eval_nn (z := 999) (by norm_num) (by norm_num) (by norm_num)]
    rfl
  · rw [formatPower, if_pos (by rw [abs_lt]; constructor <;> norm_num)]
    have h : ctrunc (-0.5 : ℚ) = 0 := ctrunc_eval_np (by norm_num) (by norm_num) (by norm_num)
    rw [h]
    rfl
  · rw [formatPercentage, if_pos (by norm_num),
      ctrunc_eval_nn (z := 99) (by norm_num) (by norm_num) (by norm_num)]
    rfl

/-- Claim C10 witness. -/
theorem formatters_truncate_witness :
    |(999.9 : ℚ)| < 1000 ∧ 0 ≤ (99.9 : ℚ) ∧
    formatPower (999.9 : ℚ) = toString (ctrunc (999.9 : ℚ)) ++ "W" ∧
    formatPercentage (99.9 : ℚ) = toString (ctrunc (99.9 : ℚ)) ++ "%" :=
  ⟨by rw [abs_lt]; constructor <;> norm_num, by norm_num,
   (formatters_truncate_toward_zero 999.9 99.9).1 (by rw [abs_lt]; constructor <;> norm_num),
   (formatters_truncate_toward_zero 999.9 99.9).2.1 (by norm_num)⟩

/-- Claim C6, counterexample to the claim as stated: at `effectivePlanSoc = 100`
the plan marker is placed at x = 447, outside the claimed clamp range
`[0, barWidth - 2] = [0, 446]` (the plan marker is not clamped); and at
`effectivePlanSoc = 2.8` the code places the marker at x = 11 while the claimed
`round(pct/100*barWidth) - 1` formula gives 12 (the code truncates the whole
expression instead of rounding the product). -/
theorem socMarker_formula_differs :
    planSocMarker 100 = some 447 ∧ carBarWidth - 2 = 446 ∧ ¬ (447 : ℤ) ≤ 446 ∧
    planSocMarker (14/5) = some 11 ∧ round ((14:ℚ)/5 / 100 * (carBarWidth : ℚ)) - 1 = 12 := by
  have hcq : (carBarWidth : ℚ) = 448 := by norm_num [carBarWidth, SCREEN_WIDTH, PADDING]
  refine ⟨?_, by norm_num [carBarWidth, SCREEN_WIDTH, PADDING], by norm_num, ?_, ?_⟩
  · rw [planSocMarker, if_pos (by norm_num), hcq,
      ctrunc_eval_nn (z := 447) (by norm_num) (by norm_num) (by norm_num)]
  · rw [planSocMarker, if_pos (by norm_num), hcq,
      ctrunc_eval_nn (z := 11) (by norm_num) (by norm_num) (by norm_num)]
  · rw [hcq, round_eq]
    have h13 : ⌊(14:ℚ)/5 / 100 * 448 + 1/2⌋ = 13 := Int.floor_eq_iff.mpr (by norm_num)
    rw [h13]
    norm_num

/-- Claim C6, amended: the plan marker is shown iff `effectivePlanSoc > 0` and the
limit marker iff `effectiveLimitSoc ≥ 0` (so 0 hides the plan marker but shows
the limit marker); each shown marker x position is the C truncation of
`pct/100 * barWidth - halfMarkerWidth`; the limit marker is clamped into
`[0, barWidth - 6]` but the plan marker is not clamped. -/
theorem socMarkers_spec (p l : ℚ) :
    ((planSocMarker p).isSome = true ↔ 0 < p) ∧
    ((limitSocMarker l).isSome = true ↔ 0 ≤ l) ∧
    (0 < p → planSocMarker p = some (ctrunc (p / 100 * (carBarWidth : ℚ) - 1))) ∧
    (∀ x : ℤ, limitSocMarker l = some x → 0 ≤ x ∧ x ≤ carBarWidth - 6) ∧
    planSocMarker 0 = none ∧ limitSocMarker 0 = some 0 := by
  have hc : carBarWidth = 448 := by norm_num [carBarWidth, SCREEN_WIDTH, PADDING]
  have hcq : (carBarWidth : ℚ) = 448 := by rw [hc]; norm_num
  refine ⟨?_, ?_, fun h => ?_, fun x hx => ?_, ?_, ?_⟩
  · by_cases h : 0 < p <;> simp [planSocMarker, h]
  · by_cases h : 0 ≤ l <;> simp [limitSocMarker, h]
  · rw [planSocMarker, if_pos h]
  · by_cases h : 0 ≤ l
    · rw [limitSocMarker, if_pos h] at hx
      simp only [Option.some.injEq] at hx
      subst hx
      rw [hc]
      split_ifs <;> omega
    · rw [limitSocMarker, if_neg h] at hx
      exact absurd hx (by simp)
  · rw [planSocMarker, if_neg (by norm_num)]
  · rw [limitSocMarker, if_pos le_rfl]
    have h3 : ctrunc ((0:ℚ) / 100 * (carBarWidth : ℚ) - 3) = -3 := by
      rw [hcq]
      exact ctrunc_eval_np (by norm_num) (by norm_num) (by norm_num)
    simp only [h3]
    rw [hc]
    norm_num

/-- Claim C6 witness. -/
theorem socMarkers_spec_witness :
    0 < (50 : ℚ) ∧ planSocMarker 50 = some (ctrunc ((50:ℚ) / 100 * (carBarWidth : ℚ) - 1)) :=
  ⟨by norm_num, (socMarkers_spec 50 0).2.2.1 (by norm_num)⟩

/-- The accumulating fold of `totalPower` equals the accumulator plus `sumPos`. -/
theorem totalPower_foldl (values : List ℚ) : ∀ acc : ℚ,
    values.foldl (fun a v => if 0 < v then a + v else a) acc = acc + sumPos values := by
  induction values with
  | nil => intro acc; simp [sumPos]
  | cons v rest ih =>
      intro acc
      simp only [List.foldl_cons, sumPos, ih]
      by_cases hv : 0 < v
      · simp only [if_pos hv]
        ring
      · simp only [if_neg hv]
        ring

/-- `totalPower` is the sum of the strictly positive entries. -/
theorem totalPower_eq_sumPos (values : List ℚ) : totalPower values = sumPos values := by
  rw [totalPower, totalPower_foldl, zero_add]

/-- Every segment width produced by the layout loop is at least one pixel. -/
theorem segWidth_ge_one (v total : ℚ) (W : ℤ) : 1 ≤ segWidth v total W := by
  rw [segWidth]
  split <;> omega

/-- The widths of a layout sum to the un-bumped proportional floors plus the number
of bumped segments. -/
theorem layout_widthSum (total : ℚ) (W : ℤ) (ht : 0 < total) (hW : 0 ≤ W) :
    ∀ (values : List ℚ) (x : ℤ),
      ((layoutSegments total W values x).map SegOut.width).sum =
        floorSum total W values + bumpCount total W values := by
  intro values
  induction values with
  | nil => intro x; simp [layoutSegments, floorSum, bumpCount]
  | cons v rest ih =>
      intro x
      by_cases hv : 0 < v
      · have harg : 0 ≤ v / total * (W : ℚ) :=
          mul_nonneg (div_nonneg hv.le ht.le) (by exact_mod_cast hW)
        have hseg : segWidth v total W =
            ⌊v / total * (W : ℚ)⌋ + (if ⌊v / total * (W : ℚ)⌋ < 1 then 1 else 0) := by
          rw [segWidth, ctrunc, if_pos harg]
          have hfl : 0 ≤ ⌊v / total * (W : ℚ)⌋ := Int.floor_nonneg.mpr harg
          by_cases hlt : ⌊v / total * (W : ℚ)⌋ < 1
          · rw [if_pos hlt, if_pos hlt]; omega
          · rw [if_neg hlt, if_neg hlt]; omega
        simp only [layoutSegments, if_pos hv, List.map_cons, List.sum_cons, floorSum,
          bumpCount, ih, hseg]
        by_cases hlt : ⌊v / total * (W : ℚ)⌋ < 1
        · rw [if_pos hlt, if_pos (show 0 < v ∧ ⌊v / total * (W : ℚ)⌋ < 1 from ⟨hv, hlt⟩)]
          ring
        · rw [if_neg hlt,
            if_neg (show ¬ (0 < v ∧ ⌊v / total * (W : ℚ)⌋ < 1) from fun hc => hlt hc.2)]
          ring
      · simp only [layoutSegments, if_neg hv, List.map_cons, List.sum_cons, floorSum,
          bumpCount, ih]
        rw [if_neg (show ¬ (0 < v ∧ ⌊v / total * (W : ℚ)⌋ < 1) from fun hc => hv hc.1)]
        ring

/-- The un-bumped proportional floors sum to at most the proportional share of the
positive total. -/
theorem floorSum_le (total : ℚ) (W : ℤ) (values : List ℚ) :
    (floorSum total W values : ℚ) ≤ sumPos values / total * W := by
  induction values with
  | nil => simp [floorSum, sumPos]
  | cons v rest ih =>
      simp only [floorSum, sumPos]
      by_cases hv : 0 < v
      · rw [if_pos hv, if_pos hv]
        push_cast
        rw [add_div, add_mul]
        have h1 : (⌊v / total * (W : ℚ)⌋ : ℚ) ≤ v / total * W := Int.floor_le _
        linarith
      · rw [if_neg hv, if_neg hv]
        push_cast
        rw [zero_add, zero_add]
        exact ih

/-- Pointwise outcome of the layout loop: a positive magnitude yields a shown
segment of width at least 1; a non-positive magnitude yields a hidden segment. -/
theorem layout_zip (total : ℚ) (W : ℤ) :
    ∀ (values : List ℚ) (x : ℤ), ∀ p ∈ values.zip (layoutSegments total W values x),
      (0 < p.1 → p.2.shown = true ∧ 1 ≤ p.2.width) ∧ (p.1 ≤ 0 → p.2.shown = false) := by
  intro values
  induction values with
  | nil => intro x p hp; simp [layoutSegments] at hp
  | cons v rest ih =>
      intro x p hp
      by_cases hv : 0 < v
      · simp only [layoutSegments, if_pos hv, List.zip_cons_cons, List.mem_cons] at hp
        rcases hp with rfl | hp
        · exact ⟨fun _ => ⟨rfl, segWidth_ge_one v total W⟩, fun h => absurd hv (not_lt.mpr h)⟩
        · exact ih _ p hp
      · simp only [layoutSegments, if_neg hv, List.zip_cons_cons, List.mem_cons] at hp
        rcases hp with rfl | hp
        · exact ⟨fun h => absurd h hv, fun _ => rfl⟩
        · exact ih _ p hp

/-- The layout loop places its shown segments contiguously from the starting x. -/
theorem layout_contiguous (total : ℚ) (W : ℤ) :
    ∀ (values : List ℚ) (x : ℤ), contiguousFrom x (layoutSegments total W values x) := by
  intro values
  induction values with
  | nil => intro x; simp [layoutSegments, contiguousFrom]
  | cons v rest ih =>
      intro x
      by_cases hv : 0 < v
      · simp only [layoutSegments, if_pos hv, contiguousFrom, if_true]
        exact ⟨trivial, ih (x + segWidth v total W)⟩
      · simp only [layoutSegments, if_neg hv, contiguousFrom, if_false]
        exact ih x

/-- The total shown width is bounded by the pixel budget plus the number of bumped
segments. -/
theorem widthSum_le (values : List ℚ) (W : ℤ) (hW : 0 ≤ W) (h1 : 1 ≤ totalPower values) :
    ((layoutSegments (totalPower values) W values 0).map SegOut.width).sum ≤
      W + bumpCount (totalPower values) W values := by
  have ht : 0 < totalPower values := lt_of_lt_of_le one_pos h1
  have hfs := floorSum_le (totalPower values) W values
  rw [← totalPower_eq_sumPos values, div_self (ne_of_gt ht), one_mul] at hfs
  have hfsZ : floorSum (totalPower values) W values ≤ W := by exact_mod_cast hfs
  rw [layout_widthSum (totalPower values) W ht hW values 0]
  omega

/-- Claim C2, amended: if the sum of positive magnitudes is below 1 the container
and every segment and label are hidden; otherwise each segment with a positive
magnitude is shown with width at least 1 pixel, segments are placed left-to-right
with no gaps, and the sum of all segment widths is at most W plus the number of
segments whose proportional share truncates below 1 pixel and is bumped to the
1-pixel minimum (so the sum can exceed W when such bumps occur, and never exceeds
W when no segment is bumped). -/
theorem updateCompositeBar_spec (values : List ℚ) (W : ℤ) (hW : 0 ≤ W) :
    (totalPower values < 1 →
      (updateCompositeBar values W).1 = false ∧
      ∀ s ∈ (updateCompositeBar values W).2, s.shown = false ∧ s.labelShown = false) ∧
    (1 ≤ totalPower values →
      (updateCompositeBar values W).1 = true ∧
      (∀ p ∈ values.zip (updateCompositeBar values W).2,
        (0 < p.1 → p.2.shown = true ∧ 1 ≤ p.2.width) ∧ (p.1 ≤ 0 → p.2.shown = false)) ∧
      contiguousFrom 0 (updateCompositeBar values W).2 ∧
      ((updateCompositeBar values W).2.map SegOut.width).sum ≤
        W + bumpCount (totalPower values) W values) := by
  constructor
  · intro hlt
    simp only [updateCompositeBar, if_pos hlt]
    refine ⟨by trivial, fun s hs => ?_⟩
    rw [List.mem_map] at hs
    obtain ⟨a, -, rfl⟩ := hs
    exact ⟨rfl, rfl⟩
  · intro hge
    have hnlt : ¬ totalPower values < 1 := not_lt.mpr hge
    simp only [updateCompositeBar, if_neg hnlt]
    exact ⟨by trivial, layout_zip (totalPower values) W values 0,
      layout_contiguous (totalPower values) W values 0, widthSum_le values W hW hge⟩

/-- Claim C2, counterexample to the claim as stated: for magnitudes
`[661, 1, 1, 1]` and pixel budget 220 every segment is shown (total 664 ≥ 1),
the three 1-pixel minimum bumps make the widths `[219, 1, 1, 1]`, and their sum
222 exceeds the budget 220. -/
theorem compositeBar_sum_exceeds :
    1 ≤ totalPower [661, 1, 1, 1] ∧
    ((updateCompositeBar [661, 1, 1, 1] 220).2.map SegOut.width).sum = 222 ∧
    ¬ ((222 : ℤ) ≤ 220) := by
  have ht : totalPower [661, 1, 1, 1] = 664 := by norm_num [totalPower]
  have hc1 : ctrunc ((36355 : ℚ) / 166) = 219 :=
    ctrunc_eval_nn (by norm_num) (by norm_num) (by norm_num)
  have hc2 : ctrunc ((55 : ℚ) / 166) = 0 :=
    ctrunc_eval_nn (by norm_num) (by norm_num) (by norm_num)
  refine ⟨by rw [ht]; norm_num, ?_, by norm_num⟩
  norm_num [updateCompositeBar, ht, layoutSegments, segWidth, hc1, hc2]

/-- Claim C2 witness. -/
theorem updateCompositeBar_spec_witness :
    0 ≤ (220 : ℤ) ∧ 1 ≤ totalPower [100, 50] ∧
    ((updateCompositeBar [100, 50] 220).2.map SegOut.width).sum ≤
      220 + bumpCount (totalPower [100, 50]) 220 [100, 50] := by
  have h1 : (1 : ℚ) ≤ totalPower [100, 50] := by norm_num [totalPower]
  exact ⟨by norm_num, h1, ((updateCompositeBar_spec [100, 50] 220 (by norm_num)).2 h1).2.2.2⟩


/-- The locally adjusted hour is always in `[0, 24)` for a valid UTC hour. -/
theorem planLocalAdjust_hour_bounds (y mo d h : ℤ) (dst : Bool) (h0 : 0 ≤ h) (h1 : h < 24) :
    0 ≤ (planLocalAdjust y mo d h dst).1 ∧ (planLocalAdjust y mo d h dst).1 < 24 := by
  simp only [planLocalAdjust]
  split_ifs <;> dsimp only <;> omega

/-- A nonnegative integer below 60 rendered with the conditional zero pad always
occupies exactly two characters. -/
theorem pad2_len {n : ℤ} (h0 : 0 ≤ n) (h1 : n < 60) :
    ((if n < 10 then "0" else "") ++ toString n).length = 2 := by
  interval_cases n <;> decide

/-- Claim C8: inputs shorter than 19 characters fail closed to "keiner"; for parsed
components of a well-formed ISO-8601 UTC timestamp, after the fixed DST offset and
day-overflow adjustment the output prefix is keyed on the day difference — 0 gives
"Heute", 1 gives "Morgen", 2 through 6 give the German weekday name of the target
date, everything else (cross-month dates being collapsed to ±7) gives the numeric
"D.M." date — and the output always ends with a zero-padded "HH:MM" time. -/
theorem formatPlanTime_spec (s : String) (t : Today) (y mo d h mi : ℤ)
    (hh0 : 0 ≤ h) (hh : h < 24) (hm0 : 0 ≤ mi) (hm : mi < 60) :
    (s.length < 19 → formatPlanTime s t = "keiner") ∧
    formatPlanTimeCore y mo d h mi t =
      (let a := planLocalAdjust y mo d h t.isDST
       let dd := planDaysDiff a.2.2.2 a.2.2.1 a.2.1 t
       (if dd = 0 then "Heute"
        else if dd = 1 then "Morgen"
        else if 2 ≤ dd ∧ dd < 7 then
          germanDays.getD (mktimeWday a.2.2.2 a.2.2.1 a.2.1).toNat ""
        else toString a.2.1 ++ "." ++ toString a.2.2.1 ++ ".") ++ " " ++
       ((if a.1 < 10 then "0" else "") ++ toString a.1 ++ ":" ++
        (if mi < 10 then "0" else "") ++ toString mi)) ∧
    ((if (planLocalAdjust y mo d h t.isDST).1 < 10 then "0" else "") ++
        toString (planLocalAdjust y mo d h t.isDST).1).length = 2 ∧
    ((if mi < 10 then "0" else "") ++ toString mi).length = 2 := by
  refine ⟨fun hlen => ?_, rfl, ?_, pad2_len hm0 hm⟩
  · rw [formatPlanTime, if_pos (Or.inr hlen)]
  · obtain ⟨b0, b1⟩ := planLocalAdjust_hour_bounds y mo d h t.isDST hh0 hh
    exact pad2_len b0 (by omega)

/-- Claim C8 witness. -/
theorem formatPlanTime_spec_witness :
    ("" : String).length < 19 ∧ formatPlanTime "" ⟨2025, 10, 11, false⟩ = "keiner" :=
  ⟨by decide,
   (formatPlanTime_spec "" ⟨2025, 10, 11, false⟩ 2025 10 12 5 0 (by decide) (by decide)
     (by decide) (by decide)).1 (by decide)⟩

/-- End-to-end evaluation of the full string pipeline: tomorrow, standard time. -/
theorem formatPlanTime_eval_morgen :
    formatPlanTime "2025-10-12T05:00:00Z" ⟨2025, 10, 11, false⟩ = "Morgen 06:00" := by decide

/-- End-to-end evaluation of the full string pipeline: a weekday three days ahead
(2025-10-14 is a Tuesday). -/
theorem formatPlanTime_eval_weekday :
    formatPlanTime "2025-10-14T10:00:00Z" ⟨2025, 10, 11, false⟩ = "Dienstag 11:00" := by decide

/-- Claim C3 witness. -/
theorem pollFailure_restart_threshold_witness :
    handlePollResult 49 true = (0, false) ∧ (handlePollResult 49 false).1 = 50 :=
  ⟨(pollFailure_restart_threshold 49).1, (pollFailure_restart_threshold 49).2.1⟩
